import Mathlib

/-
Verification of the redeem-bot core: ledger debit/credit, Midtrans webhook
idempotency and signature checking, the per-code region-rotation machine,
ingestion cost/debit, the response categorizer, and the progress tracker.
Definitions are shallow embeddings of the Python sources in src/.
-/

namespace RedeemBot

/- ===== Association-list store helpers (model of keyed SQL rows) ===== -/

/-- Lookup the first row with the given key (SQL SELECT ... WHERE key = ?,
`fetchone`). -/
def lookupA {α β : Type} [DecidableEq α] : List (α × β) → α → Option β
  | [], _ => none
  | (k, v) :: rest, key => if k = key then some v else lookupA rest key

/-- Update every row with the given key (SQL UPDATE ... WHERE key = ?). -/
def updateA {α β : Type} [DecidableEq α] (f : β → β) : List (α × β) → α → List (α × β)
  | [], _ => []
  | (k, v) :: rest, key =>
      if k = key then (k, f v) :: updateA f rest key
      else (k, v) :: updateA f rest key

/- ===== String helpers (Python `in` and `.lower()`) ===== -/

/-- Does the character list start with the given pattern? -/
def leadsWith : List Char → List Char → Bool
  | [], _ => true
  | _ :: _, [] => false
  | a :: as, b :: bs => a = b && leadsWith as bs

/-- Is `needle` a contiguous sublist of `haystack`? -/
def hasSubList (needle haystack : List Char) : Bool :=
  match haystack with
  | [] => needle.isEmpty
  | _ :: rest => leadsWith needle haystack || hasSubList needle rest

/-- Python `needle in haystack` on strings. -/
def strContains (haystack needle : String) : Bool :=
  hasSubList needle.data haystack.data

/-- Python `str.lower()` (ASCII case folding). -/
def strToLower (s : String) : String :=
  ⟨s.data.map Char.toLower⟩

/- ===== Ledger (src/database.py: users table) ===== -/

/-- One row of the `users` table (timestamps omitted): `balance`,
`total_topup`, `total_spent`. -/
structure UserRec where
  balance : Int
  total_topup : Int
  total_spent : Int
deriving DecidableEq

/-- The `users` table, keyed by `user_id`. -/
abbrev Users := List (Int × UserRec)

/-- Balance of a user as read by a plain SELECT (0 when the row is absent). -/
def balanceOf (users : Users) (user_id : Int) : Int :=
  match lookupA users user_id with
  | some u => u.balance
  | none => 0

/-- Model of src/database.py `add_balance`: INSERT OR IGNORE a zero row, then
UPDATE balance and total_topup by `amount`, then SELECT the new balance. -/
def add_balance (users : Users) (user_id : Int) (amount : Int) : Users × Int :=
  let users1 :=
    if (lookupA users user_id).isSome then users
    else users ++ [(user_id, ⟨0, 0, 0⟩)]
  let users2 :=
    updateA (fun u =>
      { u with balance := u.balance + amount, total_topup := u.total_topup + amount })
      users1 user_id
  (users2, balanceOf users2 user_id)

/-- Model of src/database.py `deduct_balance`: SELECT the balance; missing row or
`balance < amount` returns False with no mutation; otherwise UPDATE
balance −= amount, total_spent += amount and return True. -/
def deduct_balance (users : Users) (user_id : Int) (amount : Int) : Users × Bool :=
  match lookupA users user_id with
  | none => (users, false)
  | some u =>
      if u.balance < amount then (users, false)
      else
        (updateA (fun v =>
          { v with balance := v.balance - amount, total_spent := v.total_spent + amount })
          users user_id, true)

/-- A ledger operation on one user: a webhook credit or an ingestion debit. -/
inductive LedgerOp : Type
  | credit (amount : Int)
  | debit (amount : Int)
deriving DecidableEq

/-- Run a sequence of ledger operations for one user. -/
def run_ops (users : Users) (user_id : Int) : List LedgerOp → Users
  | [] => users
  | .credit a :: rest => run_ops (add_balance users user_id a).1 user_id rest
  | .debit a :: rest => run_ops (deduct_balance users user_id a).1 user_id rest

/-- Sum of the credited amounts in a sequence of operations. -/
def credit_sum : List LedgerOp → Int
  | [] => 0
  | .credit a :: rest => a + credit_sum rest
  | .debit _ :: rest => credit_sum rest

/-- Sum of the amounts of the debits that return True when the sequence is
run from the given state. -/
def successful_debit_sum (users : Users) (user_id : Int) : List LedgerOp → Int
  | [] => 0
  | .credit a :: rest => successful_debit_sum (add_balance users user_id a).1 user_id rest
  | .debit a :: rest =>
      (if (deduct_balance users user_id a).2 then a else 0) +
        successful_debit_sum (deduct_balance users user_id a).1 user_id rest

/- ===== Midtrans webhook (src/payment_gateway.py, src/webhook_server.py) ===== -/

/-- One row of the `topups` table (timestamps and id omitted):
`user_id`, `amount`, `status`. -/
structure TopupRec where
  user_id : Int
  amount : Int
  status : String
deriving DecidableEq

/-- The `topups` table, keyed by the unique `order_id`. -/
abbrev Topups := List (String × TopupRec)

/-- Model of src/database.py `update_topup_status` (database.py:359), a
TWO-argument function: UPDATE the status of the topup row with the given
order_id. The webhook handler calls it with three arguments (see
`midtrans_webhook` below), so this function is never reached from the
webhook; it is kept here as the binding the handler's import resolves to. -/
def update_topup_status (topups : Topups) (order_id : String) (status : String) : Topups :=
  updateA (fun t => { t with status := status }) topups order_id

/-- A webhook notification payload; the fields read by
`parse_webhook_notification`. A field the JSON body lacks is `none`. -/
structure MidtransNotification where
  order_id : Option String
  transaction_status : Option String
  fraud_status : Option String
  status_code : Option String
  gross_amount : Option String
  signature_key : Option String

/-- Model of src/payment_gateway.py `verify_signature`: compare the supplied
signature with the keyed hash of order_id ++ status_code ++ gross_amount
++ server_key. The SHA-512 function itself is kept abstract. -/
def verify_signature (sha512 : String → String)
    (order_id status_code gross_amount server_key signature_key : String) : Bool :=
  sha512 (order_id ++ status_code ++ gross_amount ++ server_key) == signature_key

/-- The status mapping inside `parse_webhook_notification`: capture needs
fraud_status accept for success, settlement is success, cancel/deny/expire
fail, everything else keeps the initial value pending. -/
def map_final_status (transaction_status : String) (fraud_status : Option String) : String :=
  if transaction_status = "capture" then
    if fraud_status = some "accept" then "success" else "failed"
  else if transaction_status = "settlement" then "success"
  else if transaction_status = "cancel" ∨ transaction_status = "deny" ∨
      transaction_status = "expire" then "failed"
  else "pending"

/-- Result of `parse_webhook_notification`: either `valid: False` with an
error, or the parsed fields (order_id, final status, transaction_status,
fraud_status, gross_amount). -/
inductive ParseResult : Type
  | invalid (error : String)
  | parsed (order_id status transaction_status : String)
      (fraud_status : Option String) (gross_amount : String)
deriving DecidableEq

/-- Model of src/payment_gateway.py `parse_webhook_notification`: reject when a
required field is missing (the Python error text lists the missing field
names), reject on a bad signature, otherwise map the final status. -/
def parse_webhook_notification (sha512 : String → String)
    (n : MidtransNotification) (server_key : String) : ParseResult :=
  match n.order_id, n.transaction_status, n.status_code, n.gross_amount, n.signature_key with
  | some oid, some ts, some sc, some ga, some sk =>
      if verify_signature sha512 oid sc ga server_key sk then
        .parsed oid (map_final_status ts n.fraud_status) ts n.fraud_status ga
      else .invalid "Signature tidak valid - kemungkinan pelanggaran keamanan!"
  | _, _, _, _, _ => .invalid "Missing required fields"

/-- The database state the webhook touches: topups and users. -/
structure WebhookState where
  topups : Topups
  users : Users
deriving DecidableEq

/-- HTTP-level outcome of `midtrans_webhook`: 200, 400, 404, or the 500
produced by the blanket `except` around the handler body. -/
inductive WebhookResponse : Type
  | ok
  | badRequest (msg : String)
  | notFound
  | serverError (msg : String)
deriving DecidableEq

/-- Model of src/webhook_server.py `midtrans_webhook` as bound by its
own imports (`from database import ...`, i.e. src/database.py): parse and
validate (400 on failure); look the topup up by order_id (404 when
absent); then the handler calls
`update_topup_status(order_id, status, str(notification))` with three
arguments (webhook_server.py:46) while database.py:359 defines
`update_topup_status(order_id, status)` with two, so the call raises
TypeError, the blanket `except` at webhook_server.py:67 answers 500, and
the status update and the credit below it are never executed. (The same
line 5 also requests `get_or_create_user`, defined in neither
database module, so the handler module cannot even load.) -/
def midtrans_webhook (sha512 : String → String) (server_key : String)
    (st : WebhookState) (n : MidtransNotification) : WebhookState × WebhookResponse :=
  match parse_webhook_notification sha512 n server_key with
  | .invalid e => (st, .badRequest e)
  | .parsed oid _ _ _ _ =>
      match lookupA st.topups oid with
      | none => (st, .notFound)
      | some _ =>
          (st, .serverError
            "update_topup_status() takes 2 positional arguments but 3 were given")

/-- One delivery of a notification: the state after `midtrans_webhook`. -/
def deliver (sha512 : String → String) (server_key : String)
    (n : MidtransNotification) (st : WebhookState) : WebhookState :=
  (midtrans_webhook sha512 server_key st n).1

/- ===== Code state machine (src/redeem_core.py) ===== -/

/-- Model of src/redeem_core.py `MAX_REDEEM_RETRY_PER_REGION`. -/
def MAX_REDEEM_RETRY_PER_REGION : Nat := 2

/-- Outcome of one remote call inside `redeem_code_with_retry`: an HTTP
response whose JSON carries `resultMsg`, a requests timeout, another
requests error, or an unexpected exception. -/
inductive AttemptOutcome : Type
  | response (resultMsg : String)
  | timeout
  | requestError
  | exn
deriving DecidableEq

/-- Terminal result string of `redeem_code_with_retry` / `try_all_regions`. -/
inductive RedeemResult : Type
  | success
  | invalid
  | error
deriving DecidableEq

/-- The success test on a response message: `'Assigned' in msg or
'success' in msg.lower()`. -/
def msgIsSuccess (msg : String) : Bool :=
  strContains msg "Assigned" || strContains (strToLower msg) "success"

/-- The invalid test on a response message: `'invalid' in msg.lower() or
'used' in msg.lower()`. -/
def msgIsInvalid (msg : String) : Bool :=
  strContains (strToLower msg) "invalid" || strContains (strToLower msg) "used"

/-- The attempt loop of src/redeem_core.py `redeem_code_with_retry`,
driven by an oracle giving the outcome of each remote attempt. `attempt`
is the Python loop index, `remaining` the attempts left; the second
component counts the remote attempts actually performed. A response that
matches neither pattern, a timeout, and a request error all retry while
the loop has a later iteration (`attempt < max_attempts - 1`, i.e.
`remaining > 1`) and yield "error" otherwise; an unexpected exception
returns "error" at once. -/
def redeemLoop (oracle : Nat → AttemptOutcome) : Nat → Nat → RedeemResult × Nat
  | _, 0 => (.error, 0)
  | attempt, r + 1 =>
      match oracle attempt with
      | .response msg =>
          if msgIsSuccess msg then (.success, 1)
          else if msgIsInvalid msg then (.invalid, 1)
          else if r = 0 then (.error, 1)
          else
            let (res, c) := redeemLoop oracle (attempt + 1) r
            (res, c + 1)
      | .timeout =>
          if r = 0 then (.error, 1)
          else
            let (res, c) := redeemLoop oracle (attempt + 1) r
            (res, c + 1)
      | .requestError =>
          if r = 0 then (.error, 1)
          else
            let (res, c) := redeemLoop oracle (attempt + 1) r
            (res, c + 1)
      | .exn => (.error, 1)

/-- Model of src/redeem_core.py `redeem_code_with_retry` for one region, starting
at attempt 0 with `max_attempts` attempts available. -/
def redeem_code_with_retry (oracle : Nat → AttemptOutcome) (max_attempts : Nat) :
    RedeemResult × Nat :=
  redeemLoop oracle 0 max_attempts

/-- Model of src/redeem_core.py `try_all_regions`: walk the region list once in
order; success and invalid are terminal, an error rotates to the next
region; an exhausted list returns "error". The second component records
each region attempted together with the number of remote attempts spent
on it. -/
def try_all_regions (oracle : String → Nat → AttemptOutcome) :
    List String → RedeemResult × List (String × Nat)
  | [] => (.error, [])
  | r :: rest =>
      let (res, c) := redeem_code_with_retry (oracle r) MAX_REDEEM_RETRY_PER_REGION
      match res with
      | .success => (.success, [(r, c)])
      | .invalid => (.invalid, [(r, c)])
      | .error =>
          let (res2, tr) := try_all_regions oracle rest
          (res2, (r, c) :: tr)

/- ===== Ingestion boundary (src/bot.py on_message, src/config.py) ===== -/

/-- Model of src/config.py `REDEEM_COST_PER_CODE` (default 1000). -/
def REDEEM_COST_PER_CODE : Nat := 1000

/-- Model of src/config.py `MAX_CODES_PER_UPLOAD` (default 100). -/
def MAX_CODES_PER_UPLOAD : Nat := 100

/-- One queued job as put on `login_queue` (credentials, region and file
path omitted): the submitting user and the submitted codes. -/
structure Job where
  user_id : Int
  codes : List String
deriving DecidableEq

/-- State touched by the upload branch of `on_message`: the users table
and the submission queue. -/
structure IngestState where
  users : Users
  queue : List Job
deriving DecidableEq

/-- Reply sent back by the upload branch of `on_message`. -/
inductive UploadResponse : Type
  | rejectedEmpty
  | rejectedTooMany
  | rejectedInsufficient
  | rejectedPaymentFailed
  | accepted (total_cost : Int)
deriving DecidableEq

/-- Model of src/database.py `get_balance`: SELECT the balance, creating a zero
row when the user is absent. -/
def get_balance (users : Users) (user_id : Int) : Users × Int :=
  match lookupA users user_id with
  | some u => (users, u.balance)
  | none => (users ++ [(user_id, ⟨0, 0, 0⟩)], 0)

/-- The file-upload branch of src/bot.py `on_message`: reject empty or
oversized code lists; compute `total_cost = code_count *
REDEEM_COST_PER_CODE`; reject when the balance is below the cost with no
mutation; otherwise `deduct_balance` and, only when the debit succeeds,
enqueue the job. -/
def on_message_upload (st : IngestState) (user_id : Int) (codes : List String) :
    IngestState × UploadResponse :=
  let code_count := codes.length
  if code_count = 0 then (st, .rejectedEmpty)
  else if MAX_CODES_PER_UPLOAD < code_count then (st, .rejectedTooMany)
  else
    let total_cost : Int := (code_count : Int) * (REDEEM_COST_PER_CODE : Int)
    let (users0, user_balance) := get_balance st.users user_id
    if user_balance < total_cost then ({ st with users := users0 }, .rejectedInsufficient)
    else
      let (users1, ok) := deduct_balance users0 user_id total_cost
      if ok then
        ({ users := users1, queue := st.queue ++ [⟨user_id, codes⟩] }, .accepted total_cost)
      else ({ st with users := users1 }, .rejectedPaymentFailed)

/- ===== Response categorizer (src/response_handler.py) ===== -/

/-- Model of src/response_handler.py `ResponseCategorizer.CATEGORIES`, in the
Python dict insertion order. -/
def CATEGORIES : List (String × List String) :=
  [("SUCCESS", ["success", "assigned", "berhasil"]),
   ("INVALID_CODE", ["invalid", "not found", "expired", "used", "already"]),
   ("NO_DEVICE", ["device", "inventory", "quota", "insufficient"]),
   ("RATE_LIMIT", ["rate limit", "too many", "slow down", "wait"]),
   ("NETWORK_ERROR", ["timeout", "connection", "network"]),
   ("SERVER_ERROR", ["server", "maintenance", "busy", "unavailable"]),
   ("AUTH_ERROR", ["unauthorized", "forbidden", "session"]),
   ("UNKNOWN", [])]

/-- First category whose keyword list has a member contained in the
lowered message. -/
def firstCategory (lower : String) : List (String × List String) → Option String
  | [] => none
  | (cat, kws) :: rest =>
      if kws.any (fun kw => strContains lower kw) then some cat
      else firstCategory lower rest

/-- Model of src/response_handler.py `ResponseCategorizer.categorize`: an empty
(falsy) message is UNKNOWN; otherwise the first category with a matching
keyword, defaulting to UNKNOWN. -/
def categorize (response_msg : String) : String :=
  if response_msg.isEmpty then "UNKNOWN"
  else
    match firstCategory (strToLower response_msg) CATEGORIES with
    | some cat => cat
    | none => "UNKNOWN"

/- ===== Progress tracker (src/redeem_core.py ProgressTracker) ===== -/

/-- Model of src/redeem_core.py `ProgressTracker` counters (the wall-clock start
time is not modelled). -/
structure ProgressTracker where
  total_codes : Nat
  processed : Nat
  successful : Nat
  failed : Nat
deriving DecidableEq

/-- Model of `ProgressTracker.__init__`. -/
def ProgressTracker.init (total_codes : Nat) : ProgressTracker :=
  ⟨total_codes, 0, 0, 0⟩

/-- Model of `ProgressTracker.update`: processed += 1 and exactly one of
successful / failed += 1. -/
def ProgressTracker.update (t : ProgressTracker) (success : Bool) : ProgressTracker :=
  if success then
    { t with processed := t.processed + 1, successful := t.successful + 1 }
  else
    { t with processed := t.processed + 1, failed := t.failed + 1 }

/-- Fold a sequence of update calls over a tracker. -/
def ProgressTracker.runUpdates (t : ProgressTracker) : List Bool → ProgressTracker
  | [] => t
  | b :: rest => ProgressTracker.runUpdates (t.update b) rest

/-- Model of the Python expression `int((p / t) * 100)` under IEEE-754
binary64 arithmetic, in exact integer form: round p/t to a 53-bit
significand m/2^e (round to nearest, ties to even; the quotient lies in
(0, 1] on the tracker's domain 1 ≤ p ≤ t, so the exponent offset j with
p·2^j ≥ t is at most 7 while t ≤ 128·p, covering total_codes ≤ 100),
multiply by 100 and round to 53 bits again, then truncate toward zero.
For p = 0 the result is 0; for t = 0 Python raises, and the caller tests
total_codes = 0 first. Validated against CPython on every pair with
p ≤ t ≤ 100. -/
def floatDivMul100Int (p t : Nat) : Nat :=
  if p = 0 then 0
  else
    let j :=
      if t ≤ p then 0
      else if t ≤ 2 * p then 1
      else if t ≤ 4 * p then 2
      else if t ≤ 8 * p then 3
      else if t ≤ 16 * p then 4
      else if t ≤ 32 * p then 5
      else if t ≤ 64 * p then 6
      else 7
    let e := 52 + j
    let N := p * 2 ^ e
    let q := N / t
    let r := N % t
    let m0 :=
      if 2 * r < t then q
      else if t < 2 * r then q + 1
      else if q % 2 = 0 then q else q + 1
    let me := if m0 = 2 ^ 53 then ((2 ^ 52 : Nat), e - 1) else (m0, e)
    let M := me.1 * 100
    let s := if M < 2 ^ 59 then 6 else 7
    let q2 := M / 2 ^ s
    let r2 := M % 2 ^ s
    let half := 2 ^ (s - 1)
    let m2 :=
      if r2 < half then q2
      else if half < r2 then q2 + 1
      else if q2 % 2 = 0 then q2 else q2 + 1
    let ms := if m2 = 2 ^ 53 then ((2 ^ 52 : Nat), s + 1) else (m2, s)
    ms.1 / 2 ^ (me.2 - ms.2)

/-- One cell of the exhaustive near-floor check: the float result equals
the exact floor p·100/t or that floor minus one. -/
def pairOK (t p : Nat) : Bool :=
  (floatDivMul100Int p t == p * 100 / t) || (floatDivMul100Int p t + 1 == p * 100 / t)

/-- Boolean bounded quantifier: `f` holds below `n`. -/
def allBelow (f : Nat → Bool) : Nat → Bool
  | 0 => true
  | n + 1 => f n && allBelow f n

/-- Exhaustive near-floor check over the reachable range
total_codes ≤ 100, processed ≤ total_codes. -/
def checkAll : Bool :=
  allBelow (fun t => (t == 0) || allBelow (fun p => pairOK t p) (t + 1)) 101

/-- Model of `ProgressTracker.get_progress_percentage`: 100 when
total_codes is 0, otherwise `int((processed / total_codes) * 100)`
computed in binary64 floating point (redeem_core.py:267), modelled
exactly by `floatDivMul100Int`. -/
def ProgressTracker.get_progress_percentage (t : ProgressTracker) : Int :=
  if t.total_codes = 0 then 100
  else (floatDivMul100Int t.processed t.total_codes : Int)

/- ===================================================================== -/
/- ===== Theorems ===== -/
/- ===================================================================== -/

/- ----- Store lemmas ----- -/

theorem lookupA_updateA {α β : Type} [DecidableEq α] (f : β → β) (l : List (α × β)) (k : α) :
    lookupA (updateA f l k) k = (lookupA l k).map f := by
  induction l with
  | nil => rfl
  | cons hd tl ih =>
      obtain ⟨k', v⟩ := hd
      by_cases h : k' = k
      · simp [lookupA, updateA, h]
      · simp [lookupA, updateA, h, ih]

/- ----- Ledger lemmas ----- -/

theorem add_balance_lookup (users : Users) (uid amount : Int) (u : UserRec)
    (h : lookupA users uid = some u) :
    lookupA (add_balance users uid amount).1 uid =
      some { u with balance := u.balance + amount,
                    total_topup := u.total_topup + amount } := by
  unfold add_balance
  simp [h, lookupA_updateA]

theorem deduct_balance_insufficient (users : Users) (uid amount : Int) (u : UserRec)
    (h : lookupA users uid = some u) (hlt : u.balance < amount) :
    deduct_balance users uid amount = (users, false) := by
  unfold deduct_balance
  simp [h, hlt]

theorem deduct_balance_sufficient (users : Users) (uid amount : Int) (u : UserRec)
    (h : lookupA users uid = some u) (hge : amount ≤ u.balance) :
    (deduct_balance users uid amount).2 = true ∧
    lookupA (deduct_balance users uid amount).1 uid =
      some { u with balance := u.balance - amount,
                    total_spent := u.total_spent + amount } := by
  unfold deduct_balance
  simp [h, not_lt.mpr hge, lookupA_updateA]

theorem run_ops_balance (uid : Int) (ops : List LedgerOp) :
    ∀ (users : Users) (u : UserRec), lookupA users uid = some u →
    balanceOf (run_ops users uid ops) uid =
      u.balance + credit_sum ops - successful_debit_sum users uid ops := by
  induction ops with
  | nil =>
      intro users u h
      simp [run_ops, credit_sum, successful_debit_sum, balanceOf, h]
  | cons op rest ih =>
      intro users u h
      cases op with
      | credit a =>
          have h2 := add_balance_lookup users uid a u h
          have h3 := ih (add_balance users uid a).1 _ h2
          simp only [run_ops, credit_sum, successful_debit_sum, h3]
          ring
      | debit a =>
          by_cases hlt : u.balance < a
          · have hd := deduct_balance_insufficient users uid a u h hlt
            have h3 := ih users u h
            simp only [run_ops, credit_sum, successful_debit_sum, hd]
            simp [h3]
          · have hd := deduct_balance_sufficient users uid a u h (not_lt.mp hlt)
            have h3 := ih (deduct_balance users uid a).1 _ hd.2
            simp only [run_ops, credit_sum, successful_debit_sum, hd.1, h3, if_true]
            ring

/-- Claim C3: `deduct_balance` checks `balance >= amount` and decrements:
an insufficient stored balance returns false with no mutation, otherwise
balance decreases by the amount, total_spent increases by it and the call
returns true; a debit never drives a non-negative balance negative; and
after any sequence of debits and credits the final balance equals the
initial balance plus the sum of credits minus the sum of the successful
debits. -/
theorem deduct_balance_spec_and_accounting :
    (∀ (users : Users) (uid amount : Int) (u : UserRec),
        lookupA users uid = some u →
        (u.balance < amount → deduct_balance users uid amount = (users, false)) ∧
        (amount ≤ u.balance →
          (deduct_balance users uid amount).2 = true ∧
          lookupA (deduct_balance users uid amount).1 uid =
            some { u with balance := u.balance - amount,
                          total_spent := u.total_spent + amount })) ∧
    (∀ (users : Users) (uid amount : Int) (u : UserRec),
        lookupA users uid = some u → 0 ≤ u.balance →
        0 ≤ balanceOf (deduct_balance users uid amount).1 uid) ∧
    (∀ (users : Users) (uid : Int) (u : UserRec) (ops : List LedgerOp),
        lookupA users uid = some u →
        balanceOf (run_ops users uid ops) uid =
          u.balance + credit_sum ops - successful_debit_sum users uid ops) := by
  refine ⟨?_, ?_, ?_⟩
  · intro users uid amount u h
    exact ⟨fun hlt => deduct_balance_insufficient users uid amount u h hlt,
           fun hge => deduct_balance_sufficient users uid amount u h hge⟩
  · intro users uid amount u h hnn
    by_cases hlt : u.balance < amount
    · rw [deduct_balance_insufficient users uid amount u h hlt]
      simp [balanceOf, h, hnn]
    · have hd := deduct_balance_sufficient users uid amount u h (not_lt.mp hlt)
      rw [balanceOf, hd.2]
      simp
      omega
  · intro users uid u ops h
    exact run_ops_balance uid ops users u h

/-- Witness for C3 at a concrete state: balance 5000, debit 7000 fails
without mutation, debit 3000 succeeds, and the sequence credit 100, debit
3000, debit 3000 ends at 5000 + 100 − 3000. -/
theorem deduct_balance_spec_and_accounting_witness :
    deduct_balance [((7 : Int), ⟨5000, 0, 0⟩)] 7 7000 = ([((7 : Int), ⟨5000, 0, 0⟩)], false) ∧
    (deduct_balance [((7 : Int), ⟨5000, 0, 0⟩)] 7 3000).2 = true ∧
    balanceOf (run_ops [((7 : Int), ⟨5000, 0, 0⟩)] 7
        [.credit 100, .debit 3000, .debit 3000]) 7 =
      5000 + credit_sum [.credit 100, .debit 3000, .debit 3000] -
        successful_debit_sum [((7 : Int), ⟨5000, 0, 0⟩)] 7
          [.credit 100, .debit 3000, .debit 3000] := by
  refine ⟨?_, ?_, ?_⟩
  · exact (deduct_balance_spec_and_accounting.1 [((7 : Int), ⟨5000, 0, 0⟩)] 7 7000
      ⟨5000, 0, 0⟩ (by decide)).1 (by decide)
  · exact ((deduct_balance_spec_and_accounting.1 [((7 : Int), ⟨5000, 0, 0⟩)] 7 3000
      ⟨5000, 0, 0⟩ (by decide)).2 (by decide)).1
  · exact deduct_balance_spec_and_accounting.2.2 [((7 : Int), ⟨5000, 0, 0⟩)] 7
      ⟨5000, 0, 0⟩ [.credit 100, .debit 3000, .debit 3000] (by decide)

/- ----- Webhook lemmas ----- -/

theorem midtrans_webhook_state_fixed (sha512 : String → String) (key : String)
    (st : WebhookState) (n : MidtransNotification) :
    (midtrans_webhook sha512 key st n).1 = st := by
  rcases hp : parse_webhook_notification sha512 n key with e | ⟨oid, status, ts, fs, ga⟩
  · unfold midtrans_webhook
    rw [hp]
  · unfold midtrans_webhook
    rw [hp]
    rcases hl : lookupA st.topups oid with _ | t <;> simp [hl]

/-- Claim C1 (code bug): the handler never credits at all. Bound against
src/database.py (its own import line), every delivery that passes parsing
and finds the topup dies in the three-argument `update_topup_status` call
with a TypeError answered as 500, before any status update or credit; so
the state is unchanged by every delivery, iterating deliveries is the
identity, and at the concrete failing input (stored pending topup T1 of
amount 10000 for user 7, valid settlement notification delivered twice)
the balance stays 500 instead of being credited exactly once. -/
theorem webhook_never_credits :
    (∀ (sha512 : String → String) (key : String) (st : WebhookState)
        (n : MidtransNotification),
        (midtrans_webhook sha512 key st n).1 = st ∧
        (midtrans_webhook sha512 key st n).2 ≠ .ok) ∧
    (∀ (sha512 : String → String) (key : String) (n : MidtransNotification)
        (N : Nat) (st : WebhookState),
        (deliver sha512 key n)^[N] st = st) ∧
    midtrans_webhook (fun s => s ++ "#") "KEY"
        ⟨[("T1", ⟨7, 10000, "pending"⟩)], [((7 : Int), ⟨500, 0, 0⟩)]⟩
        ⟨some "T1", some "settlement", none, some "200", some "10000",
          some "T120010000KEY#"⟩ =
      (⟨[("T1", ⟨7, 10000, "pending"⟩)], [((7 : Int), ⟨500, 0, 0⟩)]⟩,
        .serverError
          "update_topup_status() takes 2 positional arguments but 3 were given") ∧
    balanceOf (((deliver (fun s => s ++ "#") "KEY"
        ⟨some "T1", some "settlement", none, some "200", some "10000",
          some "T120010000KEY#"⟩)^[2]
      ⟨[("T1", ⟨7, 10000, "pending"⟩)], [((7 : Int), ⟨500, 0, 0⟩)]⟩).users) 7 = 500 := by
  refine ⟨?_, ?_, by decide, by decide⟩
  · intro sha512 key st n
    refine ⟨midtrans_webhook_state_fixed sha512 key st n, ?_⟩
    rcases hp : parse_webhook_notification sha512 n key with e | ⟨oid, status, ts, fs, ga⟩
    · unfold midtrans_webhook
      rw [hp]
      simp
    · unfold midtrans_webhook
      rw [hp]
      rcases hl : lookupA st.topups oid with _ | t <;> simp [hl]
  · intro sha512 key n N st
    have hfix : deliver sha512 key n st = st :=
      midtrans_webhook_state_fixed sha512 key st n
    exact Function.iterate_fixed hfix N


/-- Claim C2: a notification whose signature_key differs from the keyed
hash of order_id ++ status_code ++ gross_amount ++ server_key is rejected
with a 400 response and the state (topups and users) is unchanged. -/
theorem webhook_forged_signature_rejected (sha512 : String → String) (key : String)
    (st : WebhookState) (n : MidtransNotification) (oid sc ga sk : String)
    (ho : n.order_id = some oid) (hsc : n.status_code = some sc)
    (hga : n.gross_amount = some ga) (hsk : n.signature_key = some sk)
    (hbad : sha512 (oid ++ sc ++ ga ++ key) ≠ sk) :
    ∃ e, midtrans_webhook sha512 key st n = (st, .badRequest e) := by
  have hfalse : (sha512 (oid ++ sc ++ ga ++ key) == sk) = false := by
    simpa using hbad
  have hparse : ∃ e, parse_webhook_notification sha512 n key = .invalid e := by
    unfold parse_webhook_notification
    cases hts : n.transaction_status with
    | none =>
        rw [ho, hsc, hga, hsk]
        exact ⟨_, rfl⟩
    | some ts =>
        rw [ho, hsc, hga, hsk]
        exact ⟨"Signature tidak valid - kemungkinan pelanggaran keamanan!",
          by simp [verify_signature, hfalse]⟩
  obtain ⟨e, he⟩ := hparse
  refine ⟨e, ?_⟩
  unfold midtrans_webhook
  rw [he]

/-- Witness for C2: a forged signature on an otherwise well-formed
settlement notification leaves the concrete state untouched. -/
theorem webhook_forged_signature_rejected_witness :
    ∃ e, midtrans_webhook (fun s => s ++ "#") "KEY"
        ⟨[("T1", ⟨7, 10000, "pending"⟩)], [((7 : Int), ⟨500, 0, 0⟩)]⟩
        ⟨some "T1", some "settlement", none, some "200", some "10000", some "WRONG"⟩ =
      (⟨[("T1", ⟨7, 10000, "pending"⟩)], [((7 : Int), ⟨500, 0, 0⟩)]⟩, .badRequest e) := by
  exact webhook_forged_signature_rejected (fun s => s ++ "#") "KEY"
    ⟨[("T1", ⟨7, 10000, "pending"⟩)], [((7 : Int), ⟨500, 0, 0⟩)]⟩
    ⟨some "T1", some "settlement", none, some "200", some "10000", some "WRONG"⟩
    "T1" "200" "10000" "WRONG" rfl rfl rfl rfl (by decide)

/-- Claim C9: a capture notification whose fraud_status is anything other
than accept maps to final status failed (not pending), and delivering such
a notification never changes any user balance. -/
theorem capture_without_fraud_accept_fails (fs : Option String)
    (hfs : fs ≠ some "accept") :
    map_final_status "capture" fs = "failed" ∧
    ∀ (sha512 : String → String) (key : String) (st : WebhookState)
      (n : MidtransNotification),
      n.transaction_status = some "capture" → n.fraud_status = fs →
      ((midtrans_webhook sha512 key st n).1).users = st.users := by
  have h1 : map_final_status "capture" fs = "failed" := by
    unfold map_final_status
    simp [hfs]
  refine ⟨h1, ?_⟩
  intro sha512 key st n hts hfs2
  rw [midtrans_webhook_state_fixed sha512 key st n]

/-- Witness for C9: a fraud-challenged capture on a concrete pending topup
maps to failed and leaves the user row untouched. -/
theorem capture_without_fraud_accept_fails_witness :
    map_final_status "capture" (some "challenge") = "failed" ∧
    ((midtrans_webhook (fun s => s ++ "#") "KEY"
        ⟨[("T1", ⟨7, 10000, "pending"⟩)], [((7 : Int), ⟨500, 0, 0⟩)]⟩
        ⟨some "T1", some "capture", some "challenge", some "200", some "10000",
          some "T120010000KEY#"⟩).1).users = [((7 : Int), ⟨500, 0, 0⟩)] := by
  have h := capture_without_fraud_accept_fails (some "challenge") (by decide)
  exact ⟨h.1, h.2 (fun s => s ++ "#") "KEY"
    ⟨[("T1", ⟨7, 10000, "pending"⟩)], [((7 : Int), ⟨500, 0, 0⟩)]⟩
    ⟨some "T1", some "capture", some "challenge", some "200", some "10000",
      some "T120010000KEY#"⟩ rfl rfl⟩

/- ----- Code state machine ----- -/

/-- Claim C4, counterexample: with two regions and every remote attempt a
transient timeout (so no region ever yields a terminal result), the
machine attempts each of the two regions exactly once (two attempts per
region) and terminates itself with result error — it does not wrap past
the last region back to the first and keep cycling until an external
timeout. -/
theorem try_all_regions_no_wraparound_cex :
    try_all_regions (fun _ _ => AttemptOutcome.timeout) ["hk", "sg"] =
      (.error, [("hk", 2), ("sg", 2)]) ∧
    ((try_all_regions (fun _ _ => AttemptOutcome.timeout) ["hk", "sg"]).2.map
        Prod.fst).count "hk" = 1 := by
  decide

/-- Claim C4, amended: when no region yields a terminal (success/invalid)
result, `try_all_regions` attempts each region of the Job's region list
exactly once, in order, and then terminates by itself with result error;
it does not wrap around past the last region. -/
theorem try_all_regions_single_pass (oracle : String → Nat → AttemptOutcome)
    (regions : List String)
    (h : ∀ r ∈ regions,
      (redeem_code_with_retry (oracle r) MAX_REDEEM_RETRY_PER_REGION).1 = .error) :
    try_all_regions oracle regions =
      (.error, regions.map
        (fun r => (r, (redeem_code_with_retry (oracle r) MAX_REDEEM_RETRY_PER_REGION).2))) := by
  induction regions with
  | nil => rfl
  | cons r rest ih =>
      have hr := h r (List.mem_cons_self r rest)
      have hrest := ih (fun x hx => h x (List.mem_cons_of_mem r hx))
      rcases hp : redeem_code_with_retry (oracle r) MAX_REDEEM_RETRY_PER_REGION
        with ⟨res, c⟩
      rw [hp] at hr
      simp only at hr
      subst hr
      simp [try_all_regions, hp, hrest]

/-- Witness for the amended C4 at the counterexample input: all-timeout
oracle over ["hk", "sg"]. -/
theorem try_all_regions_single_pass_witness :
    try_all_regions (fun _ _ => AttemptOutcome.timeout) ["hk", "sg"] =
      (.error, ["hk", "sg"].map
        (fun r => (r, (redeem_code_with_retry ((fun _ _ => AttemptOutcome.timeout) r)
          MAX_REDEEM_RETRY_PER_REGION).2))) := by
  exact try_all_regions_single_pass (fun _ _ => AttemptOutcome.timeout) ["hk", "sg"]
    (by decide)

/-- Claim C5: a code whose first remote outcome on region A classifies as
invalid terminates as invalid after exactly one remote attempt: region A
is not retried and region B is never attempted. -/
theorem invalid_terminal_one_attempt (oracle : String → Nat → AttemptOutcome)
    (A B m : String) (hor : oracle A 0 = .response m)
    (hsucc : msgIsSuccess m = false) (hinv : msgIsInvalid m = true) :
    try_all_regions oracle [A, B] = (.invalid, [(A, 1)]) := by
  have hloop : redeemLoop (oracle A) 0 MAX_REDEEM_RETRY_PER_REGION = (.invalid, 1) := by
    unfold MAX_REDEEM_RETRY_PER_REGION redeemLoop
    rw [hor]
    simp [hsucc, hinv]
  simp [try_all_regions, redeem_code_with_retry, hloop]

/-- Witness for C5 on the message "Invalid activation code" over regions
hk and sg. -/
theorem invalid_terminal_one_attempt_witness :
    try_all_regions
        (fun _ _ => AttemptOutcome.response "Invalid activation code") ["hk", "sg"]
      = (.invalid, [("hk", 1)]) := by
  exact invalid_terminal_one_attempt
    (fun _ _ => AttemptOutcome.response "Invalid activation code") "hk" "sg"
    "Invalid activation code" rfl (by decide) (by decide)

/-- A transient attempt outcome: a requests timeout or another requests
(connection) error — both hit the retry path of `redeem_code_with_retry`. -/
def isTransient (o : AttemptOutcome) : Bool :=
  match o with
  | .timeout => true
  | .requestError => true
  | _ => false

theorem redeemLoop_last_transient (oracle : Nat → AttemptOutcome) (a : Nat)
    (ho : isTransient (oracle a) = true) :
    redeemLoop oracle a 1 = (.error, 1) := by
  cases hoa : oracle a <;> rw [hoa] at ho <;> simp [isTransient] at ho <;>
    simp [redeemLoop, hoa]

theorem redeemLoop_step_transient (oracle : Nat → AttemptOutcome) (a r : Nat)
    (hr : r ≠ 0) (ho : isTransient (oracle a) = true) :
    redeemLoop oracle a (r + 1) =
      ((redeemLoop oracle (a + 1) r).1, (redeemLoop oracle (a + 1) r).2 + 1) := by
  cases hoa : oracle a <;> rw [hoa] at ho <;> simp [isTransient] at ho <;>
    simp [redeemLoop, hoa, hr]

theorem redeemLoop_all_transient (oracle : Nat → AttemptOutcome) :
    ∀ (n a : Nat), (∀ i, i < n → isTransient (oracle (a + i)) = true) →
    redeemLoop oracle a n = (.error, n) := by
  intro n
  induction n with
  | zero => intro a _; rfl
  | succ k ih =>
      intro a h
      have h0 : isTransient (oracle a) = true := by
        have := h 0 (Nat.succ_pos k)
        simpa using this
      cases k with
      | zero => exact redeemLoop_last_transient oracle a h0
      | succ j =>
          have hrec : redeemLoop oracle (a + 1) (j + 1) = (.error, j + 1) := by
            refine ih (a + 1) (fun i hi => ?_)
            have := h (i + 1) (by omega)
            simpa [Nat.add_assoc, Nat.add_comm 1 i] using this
          rw [redeemLoop_step_transient oracle a (j + 1) (Nat.succ_ne_zero j) h0, hrec]

/-- Claim C6: a transient outcome (timeout or connection error) retries
the same region with the attempt counter incremented, bounded by
`MAX_REDEEM_RETRY_PER_REGION`: when every attempt on a region is
transient, the region performs exactly the cap's number of attempts and
returns error, and `try_all_regions` then rotates to the next region of
the list. -/
theorem transient_retry_cap_then_rotate :
    (∀ (oracle : Nat → AttemptOutcome) (n a : Nat),
        (∀ i, i < n → isTransient (oracle (a + i)) = true) →
        redeemLoop oracle a n = (.error, n)) ∧
    (∀ (oracle : Nat → AttemptOutcome),
        (∀ i, i < MAX_REDEEM_RETRY_PER_REGION → isTransient (oracle i) = true) →
        redeem_code_with_retry oracle MAX_REDEEM_RETRY_PER_REGION =
          (.error, MAX_REDEEM_RETRY_PER_REGION)) ∧
    (∀ (oracle : String → Nat → AttemptOutcome) (r : String) (rest : List String),
        (redeem_code_with_retry (oracle r) MAX_REDEEM_RETRY_PER_REGION).1 = .error →
        try_all_regions oracle (r :: rest) =
          ((try_all_regions oracle rest).1,
            (r, (redeem_code_with_retry (oracle r) MAX_REDEEM_RETRY_PER_REGION).2) ::
              (try_all_regions oracle rest).2)) := by
  refine ⟨fun oracle n a h => redeemLoop_all_transient oracle n a h, ?_, ?_⟩
  · intro oracle h
    unfold redeem_code_with_retry
    exact redeemLoop_all_transient oracle MAX_REDEEM_RETRY_PER_REGION 0
      (fun i hi => by simpa using h i hi)
  · intro oracle r rest herr
    rcases hp : redeem_code_with_retry (oracle r) MAX_REDEEM_RETRY_PER_REGION
      with ⟨res, c⟩
    rw [hp] at herr
    simp only at herr
    subst herr
    simp [try_all_regions, hp]

/-- Witness for C6: timeouts on both attempts of region hk exhaust the
cap of 2 and the machine rotates to region sg. -/
theorem transient_retry_cap_then_rotate_witness :
    redeem_code_with_retry (fun _ => AttemptOutcome.timeout)
        MAX_REDEEM_RETRY_PER_REGION = (.error, MAX_REDEEM_RETRY_PER_REGION) ∧
    try_all_regions (fun r _ => if r = "hk" then .timeout else
        .response "Assigned") ["hk", "sg"] =
      ((try_all_regions (fun r _ => if r = "hk" then .timeout else
          .response "Assigned") ["sg"]).1,
        ("hk", (redeem_code_with_retry
          ((fun r _ => if r = "hk" then AttemptOutcome.timeout else
            .response "Assigned") "hk") MAX_REDEEM_RETRY_PER_REGION).2) ::
          (try_all_regions (fun r _ => if r = "hk" then .timeout else
            .response "Assigned") ["sg"]).2) := by
  constructor
  · exact transient_retry_cap_then_rotate.2.1 (fun _ => AttemptOutcome.timeout)
      (fun i _ => rfl)
  · exact transient_retry_cap_then_rotate.2.2
      (fun r _ => if r = "hk" then .timeout else .response "Assigned") "hk" ["sg"]
      (by decide)

/- ----- Ingestion boundary ----- -/

/-- Claim C7: for an accepted upload size, the ingestion boundary computes
cost = code_count × cost-per-code; when the balance is below the cost it
rejects with no mutation and no job; otherwise it debits exactly the cost
and enqueues the job. -/
theorem ingestion_debit_then_enqueue (st : IngestState) (uid : Int)
    (codes : List String) (u : UserRec)
    (hu : lookupA st.users uid = some u)
    (h1 : 1 ≤ codes.length) (h2 : codes.length ≤ MAX_CODES_PER_UPLOAD) :
    (u.balance < (codes.length : Int) * (REDEEM_COST_PER_CODE : Int) →
      on_message_upload st uid codes = (st, .rejectedInsufficient)) ∧
    ((codes.length : Int) * (REDEEM_COST_PER_CODE : Int) ≤ u.balance →
      (on_message_upload st uid codes).2 =
        .accepted ((codes.length : Int) * (REDEEM_COST_PER_CODE : Int)) ∧
      (on_message_upload st uid codes).1.queue = st.queue ++ [⟨uid, codes⟩] ∧
      balanceOf (on_message_upload st uid codes).1.users uid =
        u.balance - (codes.length : Int) * (REDEEM_COST_PER_CODE : Int)) := by
  have hne : ¬ codes.length = 0 := by omega
  have hmax : ¬ MAX_CODES_PER_UPLOAD < codes.length := by omega
  constructor
  · intro hlt
    unfold on_message_upload get_balance
    simp [hne, hmax, hu, hlt]
  · intro hge
    have hnlt : ¬ u.balance < (codes.length : Int) * (REDEEM_COST_PER_CODE : Int) :=
      not_lt.mpr hge
    have hded := deduct_balance_sufficient st.users uid
      ((codes.length : Int) * (REDEEM_COST_PER_CODE : Int)) u hu hge
    rcases hd : deduct_balance st.users uid
        ((codes.length : Int) * (REDEEM_COST_PER_CODE : Int)) with ⟨users1, ok⟩
    rw [hd] at hded
    simp only at hded
    obtain ⟨hok, hlook⟩ := hded
    subst hok
    unfold on_message_upload get_balance
    simp [hne, hmax, hu, hnlt, hd]
    rw [balanceOf, hlook]

/-- Witness for C7, the spec's concrete scenario: balance 5000, cost 1000
per code; a 4-code batch is debited to 1000 and enqueued, then a 2-code
batch costing 2000 is rejected with no mutation. -/
theorem ingestion_debit_then_enqueue_witness :
    ((on_message_upload ⟨[((7 : Int), ⟨5000, 0, 0⟩)], []⟩ 7 ["a", "b", "c", "d"]).2 =
        .accepted 4000 ∧
      (on_message_upload ⟨[((7 : Int), ⟨5000, 0, 0⟩)], []⟩ 7
          ["a", "b", "c", "d"]).1.queue = [⟨7, ["a", "b", "c", "d"]⟩] ∧
      balanceOf (on_message_upload ⟨[((7 : Int), ⟨5000, 0, 0⟩)], []⟩ 7
          ["a", "b", "c", "d"]).1.users 7 = 1000) ∧
    on_message_upload
        (on_message_upload ⟨[((7 : Int), ⟨5000, 0, 0⟩)], []⟩ 7 ["a", "b", "c", "d"]).1
        7 ["e", "f"] =
      ((on_message_upload ⟨[((7 : Int), ⟨5000, 0, 0⟩)], []⟩ 7 ["a", "b", "c", "d"]).1,
        .rejectedInsufficient) := by
  constructor
  · have h := (ingestion_debit_then_enqueue ⟨[((7 : Int), ⟨5000, 0, 0⟩)], []⟩ 7
      ["a", "b", "c", "d"] ⟨5000, 0, 0⟩ (by decide) (by decide) (by decide)).2
      (by decide)
    exact ⟨h.1, by simpa using h.2.1, h.2.2⟩
  · exact (ingestion_debit_then_enqueue
      (on_message_upload ⟨[((7 : Int), ⟨5000, 0, 0⟩)], []⟩ 7 ["a", "b", "c", "d"]).1
      7 ["e", "f"] ⟨1000, 0, 4000⟩ (by decide) (by decide) (by decide)).1
      (by decide)

/- ----- Response categorizer ----- -/

theorem firstCategory_mem (lower : String) :
    ∀ (l : List (String × List String)) (c : String),
      firstCategory lower l = some c → c ∈ l.map Prod.fst := by
  intro l
  induction l with
  | nil => intro c h; exact absurd h (by simp [firstCategory])
  | cons p rest ih =>
      intro c h
      unfold firstCategory at h
      by_cases hp : p.2.any (fun kw => strContains lower kw) = true
      · rw [if_pos hp] at h
        injection h with h
        simp [h]
      · rw [if_neg hp] at h
        simp [ih c h]

theorem firstCategory_none (lower : String) :
    ∀ (l : List (String × List String)),
      (∀ p ∈ l, ∀ kw ∈ p.2, strContains lower kw = false) →
      firstCategory lower l = none := by
  intro l
  induction l with
  | nil => intro _; rfl
  | cons p rest ih =>
      intro h
      unfold firstCategory
      have hp : p.2.any (fun kw => strContains lower kw) = false := by
        rw [List.any_eq_false]
        intro kw hkw
        simp [h p (List.mem_cons_self p rest) kw hkw]
      rw [hp]
      simp only [Bool.false_eq_true, if_false]
      exact ih (fun q hq => h q (List.mem_cons_of_mem p hq))

/-- Claim C8: `categorize` is a total function into its fixed set of
category names (the empty string included), and any message containing no
keyword of any category yields UNKNOWN. -/
theorem categorize_total_and_default (msg : String) :
    categorize msg ∈ ["SUCCESS", "INVALID_CODE", "NO_DEVICE", "RATE_LIMIT",
      "NETWORK_ERROR", "SERVER_ERROR", "AUTH_ERROR", "UNKNOWN"] ∧
    ((∀ p ∈ CATEGORIES, ∀ kw ∈ p.2, strContains (strToLower msg) kw = false) →
      categorize msg = "UNKNOWN") := by
  constructor
  · unfold categorize
    by_cases he : msg.isEmpty
    · simp [he]
    · rw [if_neg he]
      cases hfc : firstCategory (strToLower msg) CATEGORIES with
      | none => decide
      | some c =>
          have hmem := firstCategory_mem (strToLower msg) CATEGORIES c hfc
          have heq : CATEGORIES.map Prod.fst =
              ["SUCCESS", "INVALID_CODE", "NO_DEVICE", "RATE_LIMIT",
               "NETWORK_ERROR", "SERVER_ERROR", "AUTH_ERROR", "UNKNOWN"] := rfl
          rw [heq] at hmem
          simpa using hmem
  · intro h
    unfold categorize
    by_cases he : msg.isEmpty
    · simp [he]
    · rw [if_neg he, firstCategory_none (strToLower msg) CATEGORIES h]

/-- Witness for C8 on a message matching no keyword. -/
theorem categorize_total_and_default_witness :
    categorize "foobar xyz" ∈ ["SUCCESS", "INVALID_CODE", "NO_DEVICE", "RATE_LIMIT",
      "NETWORK_ERROR", "SERVER_ERROR", "AUTH_ERROR", "UNKNOWN"] ∧
    categorize "foobar xyz" = "UNKNOWN" := by
  have h := categorize_total_and_default "foobar xyz"
  exact ⟨h.1, h.2 (by decide)⟩

/- ----- Progress tracker ----- -/

theorem runUpdates_invariant :
    ∀ (updates : List Bool) (t : ProgressTracker),
      t.processed = t.successful + t.failed →
      (t.runUpdates updates).processed =
        (t.runUpdates updates).successful + (t.runUpdates updates).failed := by
  intro updates
  induction updates with
  | nil => intro t h; exact h
  | cons b rest ih =>
      intro t h
      unfold ProgressTracker.runUpdates
      cases b <;> exact ih _ (by simp [ProgressTracker.update]; omega)

/-- Floor of the exact rational processed/total × 100 — the reading the
claim asserts — expressed as Nat integer division. -/
theorem exact_pct_floor (p tc : Nat) :
    ⌊((p : ℚ) / (tc : ℚ)) * 100⌋ = ((p * 100 / tc : Nat) : Int) := by
  have hstep : ((p : ℚ) / (tc : ℚ)) * 100 =
      (((p * 100 : Nat) : Int) : ℚ) / ((tc : Nat) : ℚ) := by
    push_cast
    ring
  rw [hstep, Rat.floor_intCast_div_natCast, ← Int.natCast_div]

set_option maxRecDepth 100000 in
/-- The exhaustive check evaluates to true (kernel computation). -/
theorem checkAll_true : checkAll = true := rfl

theorem allBelow_spec (f : Nat → Bool) :
    ∀ n, allBelow f n = true → ∀ i, i < n → f i = true := by
  intro n
  induction n with
  | zero =>
      intro _ i hi
      omega
  | succ k ih =>
      intro h i hi
      unfold allBelow at h
      rw [Bool.and_eq_true] at h
      rcases Nat.lt_succ_iff_lt_or_eq.mp hi with h2 | h2
      · exact ih h.2 i h2
      · subst h2
        exact h.1

/-- Over the reachable range (total_codes ≤ MAX_CODES_PER_UPLOAD = 100,
processed ≤ total_codes), the binary64 computation returns the exact
floor or the floor minus one. Checked exhaustively. -/
theorem floatPct_near_floor :
    ∀ tc < 101, ∀ p < 101, tc ≠ 0 → p ≤ tc →
      (floatDivMul100Int p tc = p * 100 / tc ∨
        floatDivMul100Int p tc + 1 = p * 100 / tc) := by
  intro tc htc p hp h1 h2
  have h0 : allBelow
      (fun t => (t == 0) || allBelow (fun p => pairOK t p) (t + 1)) 101 = true :=
    checkAll_true
  have h3 := allBelow_spec _ 101 h0 tc htc
  rw [Bool.or_eq_true] at h3
  rcases h3 with h3 | h3
  · rw [beq_iff_eq] at h3
    exact absurd h3 h1
  · have h4 := allBelow_spec _ (tc + 1) h3 p (by omega)
    unfold pairOK at h4
    rw [Bool.or_eq_true, beq_iff_eq, beq_iff_eq] at h4
    exact h4

/-- Claim C10, counterexample: at 29 of 100 codes processed the program
returns 28 — binary64 computes 29/100 → 0.28999999999999998…, × 100 →
28.999999999999996…, int → 28 — while the floor of the exact
29/100 × 100 is 29, so get_progress_percentage does not return the floor. -/
theorem float_pct_not_floor_cex :
    ProgressTracker.get_progress_percentage ⟨100, 29, 29, 0⟩ = 28 ∧
    ⌊(((29 : Nat) : ℚ) / ((100 : Nat) : ℚ)) * 100⌋ = 29 ∧ (28 : Int) ≠ 29 := by
  refine ⟨by decide, ?_, by decide⟩
  rw [exact_pct_floor 29 100]
  decide

/-- Claim C10 (amended): after every sequence of updates `processed =
successful + failed`; `get_progress_percentage` is total: it returns 100
when total_codes is 0 rather than dividing by zero, and otherwise returns
`int((processed / total_codes) * 100)` computed in binary64 floating
point, which over the reachable range (total_codes ≤ 100, the upload cap;
processed ≤ total_codes) equals floor(processed/total_codes × 100) or
that floor minus one (28 instead of 29 at processed = 29,
total_codes = 100). -/
theorem progress_tracker_invariant_and_percentage :
    (∀ (total : Nat) (updates : List Bool),
        ((ProgressTracker.init total).runUpdates updates).processed =
          ((ProgressTracker.init total).runUpdates updates).successful +
            ((ProgressTracker.init total).runUpdates updates).failed) ∧
    (∀ t : ProgressTracker, t.total_codes = 0 →
        t.get_progress_percentage = 100) ∧
    (∀ t : ProgressTracker, t.total_codes ≠ 0 → t.total_codes ≤ 100 →
        t.processed ≤ t.total_codes →
        (t.get_progress_percentage =
            ((t.processed * 100 / t.total_codes : Nat) : Int) ∨
          t.get_progress_percentage =
            ((t.processed * 100 / t.total_codes : Nat) : Int) - 1)) := by
  refine ⟨?_, ?_, ?_⟩
  · intro total updates
    exact runUpdates_invariant updates (ProgressTracker.init total) rfl
  · intro t h
    unfold ProgressTracker.get_progress_percentage
    rw [if_pos h]
  · intro t h1 h2 h3
    unfold ProgressTracker.get_progress_percentage
    rw [if_neg h1]
    rcases floatPct_near_floor t.total_codes (by omega) t.processed (by omega) h1 h3
      with h | h
    · left
      omega
    · right
      omega

/-- Witness for C10 on concrete trackers: the invariant after one success
and one failure out of 3; the zero-total guard; and the near-floor
disjunction at 1 of 4 codes processed. -/
theorem progress_tracker_invariant_and_percentage_witness :
    ((ProgressTracker.init 3).runUpdates [true, false]).processed =
      ((ProgressTracker.init 3).runUpdates [true, false]).successful +
        ((ProgressTracker.init 3).runUpdates [true, false]).failed ∧
    (ProgressTracker.get_progress_percentage ⟨0, 5, 3, 2⟩) = 100 ∧
    ((ProgressTracker.get_progress_percentage ⟨4, 1, 1, 0⟩) =
        ((1 * 100 / 4 : Nat) : Int) ∨
      (ProgressTracker.get_progress_percentage ⟨4, 1, 1, 0⟩) =
        ((1 * 100 / 4 : Nat) : Int) - 1) := by
  refine ⟨progress_tracker_invariant_and_percentage.1 3 [true, false],
    progress_tracker_invariant_and_percentage.2.1 ⟨0, 5, 3, 2⟩ rfl,
    progress_tracker_invariant_and_percentage.2.2 ⟨4, 1, 1, 0⟩ (by decide) (by decide)
      (by decide)⟩

end RedeemBot
